import Mathlib

/-!
Verification of the user-management addon (`src/addons/user-management.ts`).

The addon composes user/session processors and a session resource from a
configuration merged with built-in defaults, and installs them into a host
application.  We shallowly embed the module: classes become structures,
`async` callbacks become world-passing functions (`Eff`), JavaScript
`undefined` becomes `Option`/`JsValue.undefinedVal`, `console.warn` appends to the
world's warning list, and a call through an `undefined` function value
raises `JsError.invocationError` (the call-time TypeError).
-/

set_option autoImplicit false

namespace UserManagement

/-- An effectful (async) callback: takes the world, returns value and world.
`console.warn` is the only effect the module performs, recorded in `World`. -/
abbrev Eff (ω α : Type) := ω → α × ω

/-- The concrete effect world: the list of emitted console warnings. -/
structure World where
  warnings : List String
deriving DecidableEq, Repr

/-- `console.warn`: append one warning message to the world. -/
def warn (msg : String) : World → World :=
  fun w => ⟨w.warnings ++ [msg]⟩

/-- A JavaScript value that is a string or `undefined`
(attribute values and `generateId` results). -/
inductive JsValue
  | str (s : String)
  | undefinedVal
deriving DecidableEq, Repr

/-- `ResourceAttributes`: a JS object mapping attribute names to values,
modelled as an association list in insertion order with unique keys. -/
abbrev ResourceAttributes := List (String × JsValue)

/-- JS property read `attrs[k]`: the stored value, or `undefined` if absent. -/
def getAttr (attrs : ResourceAttributes) (k : String) : JsValue :=
  match attrs.find? (fun p => p.1 == k) with
  | some p => p.2
  | none => .undefinedVal

/-- The payload of a request operation: `op.data.attributes`. -/
structure OperationData where
  attributes : ResourceAttributes
deriving DecidableEq, Repr

/-- A request `Operation` as far as this module reads it (`op.data.attributes`). -/
structure Operation where
  data : OperationData
deriving DecidableEq, Repr

/-- Errors the embedded JS can raise: calling a function-typed slot that
holds `undefined` fails at call time (a TypeError; the spec calls it
`InvocationError`). -/
inductive JsError
  | invocationError
deriving DecidableEq, Repr

/-- A resource (entity) type descriptor, identified by name
(e.g. the built-in `User`). -/
structure ResourceType where
  name : String
deriving DecidableEq, Repr

/-- The built-in `User` resource from `../resources/user`. -/
def User : ResourceType := ⟨"user"⟩

/-- A user record passed to the role/permission providers. -/
abbrev UserRecord := ResourceAttributes

/-- The prototype methods of a custom user-processor class that the
composer may borrow; `none` means the class does not implement the method. -/
structure CustomProcImpl (ω : Type) where
  generateId : Option (Eff ω JsValue)
  encryptPassword : Option (Operation → Eff ω ResourceAttributes)

/-- A user-processor type: either the built-in `JsonApiUserProcessor`
(the reference compared by `userProcessor === JsonApiUserProcessor`) or a
custom class with its own prototype methods. -/
inductive UserProcessorType (ω : Type)
  | jsonApiUserProcessor
  | custom (impl : CustomProcImpl ω)

/-- `UserManagementAddonOptions`: each field is `some v` when the key is
present with value `v` and `none` when the key is absent, so that the
spread-merge with `defaults` can be stated faithfully. -/
structure UserManagementAddonOptions (ω : Type) where
  userResource : Option ResourceType := none
  userProcessor : Option (UserProcessorType ω) := none
  userEncryptPasswordCallback : Option (Operation → Eff ω ResourceAttributes) := none
  userLoginCallback : Option (Operation → ResourceAttributes → Eff ω Bool) := none
  userGenerateIdCallback : Option (Eff ω JsValue) := none
  userRolesProvider : Option (UserRecord → Eff ω (List String)) := none
  userPermissionsProvider : Option (UserRecord → Eff ω (List String)) := none
  usernameRequestParameter : Option String := none
  passwordRequestParameter : Option String := none

/-- The warning text of the default login callback. -/
def loginWarning : String :=
  "WARNING: default login callback with UserManagementAddon. ANY LOGIN REQUEST WILL PASS."

/-- The warning text of the default encryptPassword callback. -/
def encryptPasswordWarning : String :=
  "WARNING: default encryptPassword callback with UserManagementAddon. Password NOT encrypted."

/-- The default `userRolesProvider`: `async () => []`. -/
def defaultRolesProvider : UserRecord → Eff World (List String) :=
  fun _ w => ([], w)

/-- The default `userPermissionsProvider`: `async () => []`. -/
def defaultPermissionsProvider : UserRecord → Eff World (List String) :=
  fun _ w => ([], w)

/-- The default `userLoginCallback`: emits the unsafe-default warning and
returns `true`, i.e. any login request passes. -/
def defaultLoginCallback : Operation → ResourceAttributes → Eff World Bool :=
  fun _ _ w => (true, warn loginWarning w)

/-- The default `userEncryptPasswordCallback`: emits the unsafe-default
warning and returns `{ password: op.data.attributes.password }`, the
plaintext password unchanged. -/
def defaultEncryptPasswordCallback : Operation → Eff World ResourceAttributes :=
  fun op w =>
    ([("password", getAttr op.data.attributes "password")], warn encryptPasswordWarning w)

/-- The `defaults` table of the module.  Note that it supplies a (warning,
plaintext-passthrough) `userEncryptPasswordCallback` and a (warning, `true`)
`userLoginCallback`, but no `userGenerateIdCallback`. -/
def defaults : UserManagementAddonOptions World where
  userResource := some User
  userProcessor := some .jsonApiUserProcessor
  userRolesProvider := some defaultRolesProvider
  userPermissionsProvider := some defaultPermissionsProvider
  userLoginCallback := some defaultLoginCallback
  userEncryptPasswordCallback := some defaultEncryptPasswordCallback
  userGenerateIdCallback := none
  usernameRequestParameter := some "username"
  passwordRequestParameter := some "password"

/-- The constructor body `this.options = { ...defaults, ...options }`:
a shallow spread in which a key present in `options` replaces the default
and an absent key keeps the default. -/
def mergeOptions (options : Option (UserManagementAddonOptions World)) :
    UserManagementAddonOptions World :=
  match options with
  | none => defaults
  | some o =>
    { userResource := o.userResource <|> defaults.userResource
      userProcessor := o.userProcessor <|> defaults.userProcessor
      userEncryptPasswordCallback :=
        o.userEncryptPasswordCallback <|> defaults.userEncryptPasswordCallback
      userLoginCallback := o.userLoginCallback <|> defaults.userLoginCallback
      userGenerateIdCallback := o.userGenerateIdCallback <|> defaults.userGenerateIdCallback
      userRolesProvider := o.userRolesProvider <|> defaults.userRolesProvider
      userPermissionsProvider :=
        o.userPermissionsProvider <|> defaults.userPermissionsProvider
      usernameRequestParameter :=
        o.usernameRequestParameter <|> defaults.usernameRequestParameter
      passwordRequestParameter :=
        o.passwordRequestParameter <|> defaults.passwordRequestParameter }

/-- The composed `UserProcessor` class: its captured callbacks (which may be
`undefined`) and its static `resourceClass`. -/
structure UserProcessor (ω : Type) where
  resourceClass : Option ResourceType
  generateIdCallback : Option (Eff ω JsValue)
  encryptPasswordCallback : Option (Operation → Eff ω ResourceAttributes)

/-- Invoking the composed `generateId`: `generateIdCallback.bind(this)()`;
an `undefined` callback fails at call time. -/
def UserProcessor.runGenerateId {ω : Type} (p : UserProcessor ω) :
    ω → Except JsError (JsValue × ω) :=
  fun w =>
    match p.generateIdCallback with
    | some f => .ok (f w)
    | none => .error .invocationError

/-- Invoking the composed `encryptPassword(op)`:
`encryptPasswordCallback.bind(this)(op)`; an `undefined` callback fails at
call time. -/
def UserProcessor.runEncryptPassword {ω : Type} (p : UserProcessor ω) (op : Operation) :
    ω → Except JsError (ResourceAttributes × ω) :=
  fun w =>
    match p.encryptPasswordCallback with
    | some f => .ok (f op w)
    | none => .error .invocationError

/-- `createUserProcessor`, translated branch by branch.  The local
fallbacks are `async () => undefined` for id generation and
`async (op) => ({})` for password encryption; the `if` branch keeps
`userGenerateIdCallback || generateIdCallback` but assigns
`encryptPasswordCallback = userEncryptPasswordCallback` with no fallback.
The `else` branch reads the custom prototype; reading `.prototype` of an
`undefined` `userProcessor` throws at composition time. -/
def createUserProcessor {ω : Type} (opts : UserManagementAddonOptions ω) :
    Except JsError (UserProcessor ω) :=
  let generateIdCallback : Eff ω JsValue := fun w => (.undefinedVal, w)
  match opts.userProcessor with
  | some .jsonApiUserProcessor =>
    .ok { resourceClass := opts.userResource
          generateIdCallback := some (opts.userGenerateIdCallback.getD generateIdCallback)
          encryptPasswordCallback := opts.userEncryptPasswordCallback }
  | some (.custom c) =>
    .ok { resourceClass := opts.userResource
          generateIdCallback := c.generateId
          encryptPasswordCallback := c.encryptPassword }
  | none => .error .invocationError

/-- An attribute type in the session schema: `String` or the `Password`
attribute type. -/
inductive AttrType
  | string
  | password
deriving DecidableEq, Repr

/-- JS object-literal insertion: a duplicate key overwrites the earlier
value in place; a fresh key is appended. -/
def objInsert (m : List (String × AttrType)) (k : String) (v : AttrType) :
    List (String × AttrType) :=
  if m.any (fun p => p.1 == k) then
    m.map (fun p => if p.1 == k then (p.1, v) else p)
  else
    m ++ [(k, v)]

/-- Lookup of an attribute type by key in a schema. -/
def attrLookup (m : List (String × AttrType)) (k : String) : Option AttrType :=
  match m.find? (fun p => p.1 == k) with
  | some p => some p.2
  | none => none

/-- The relationship entry of the synthesized session resource: a deferred
target-type provider and the `belongsTo` cardinality flag. -/
structure RelationshipEntry where
  type : Unit → Option ResourceType
  belongsTo : Bool

/-- The synthesized `Session` resource class: its `type` name, attribute
schema (built as a JS object literal, in order `token`, username parameter,
password parameter) and relationship schema. -/
structure SessionResource where
  type : String
  attributes : List (String × AttrType)
  relationships : List (String × RelationshipEntry)

/-- The session schema object literal
`{ token: String, [u]: String, [p]: Password }`, keys evaluated in this
order with JS duplicate-key overwrite semantics. -/
def sessionSchemaAttributes (u p : String) : List (String × AttrType) :=
  objInsert (objInsert (objInsert [] "token" .string) u .string) p .password

/-- `createSessionResource`: the schema object literal
`{ token: String, [usernameRequestParameter]: String,
[passwordRequestParameter]: Password }` plus the `user` relationship with a
deferred `() => options.userResource` target.  A computed key that is
`undefined` becomes the string key `"undefined"`, as in JS. -/
def createSessionResource {ω : Type} (opts : UserManagementAddonOptions ω) :
    SessionResource where
  type := "session"
  attributes :=
    sessionSchemaAttributes
      (opts.usernameRequestParameter.getD "undefined")
      (opts.passwordRequestParameter.getD "undefined")
  relationships :=
    [("user", { type := fun _ => opts.userResource, belongsTo := true })]

/-- The composed `SessionProcessor` class: its static `resourceClass` and
the captured login callback (`options.userLoginCallback`). -/
structure SessionProcessor (ω : Type) where
  resourceClass : SessionResource
  loginCallback : Option (Operation → ResourceAttributes → Eff ω Bool)

/-- `createSessionProcessor`: the override
`login(op, userDataSource) = options.userLoginCallback(op, userDataSource)`. -/
def createSessionProcessor {ω : Type} (opts : UserManagementAddonOptions ω)
    (sessionResourceType : SessionResource) : SessionProcessor ω where
  resourceClass := sessionResourceType
  loginCallback := opts.userLoginCallback

/-- Invoking the composed `login(op, attrs)`: calls the captured callback;
an `undefined` callback fails at call time. -/
def SessionProcessor.runLogin {ω : Type} (p : SessionProcessor ω) (op : Operation)
    (attrs : ResourceAttributes) : ω → Except JsError (Bool × ω) :=
  fun w =>
    match p.loginCallback with
    | some f => .ok (f op attrs w)
    | none => .error .invocationError

/-- An entry of the host registry `app.types`: either a user resource
descriptor (possibly `undefined`) or the synthesized session resource. -/
inductive RegisteredType
  | resource (r : Option ResourceType)
  | session (s : SessionResource)

/-- An entry of the host registry `app.processors`. -/
inductive RegisteredProcessor (ω : Type)
  | user (p : UserProcessor ω)
  | session (p : SessionProcessor ω)

/-- The slice of the host `Application` this module writes to:
`app.types`, `app.processors`, and the `roles`/`permissions` keys of
`app.services`. -/
structure App (ω : Type) where
  types : List RegisteredType
  processors : List (RegisteredProcessor ω)
  servicesRoles : Option (UserRecord → Eff ω (List String))
  servicesPermissions : Option (UserRecord → Eff ω (List String))

/-- `install()`: synthesize the session resource, assign the two services,
push the two entity types, then compose and push the two processors.
Composition failure (only possible when `userProcessor` is `undefined`)
propagates. -/
def install {ω : Type} (opts : UserManagementAddonOptions ω) (app : App ω) :
    Except JsError (App ω) := do
  let sessionResourceType := createSessionResource opts
  let up ← createUserProcessor opts
  let sp := createSessionProcessor opts sessionResourceType
  pure { types := app.types ++ [.resource opts.userResource, .session sessionResourceType]
         processors := app.processors ++ [.user up, .session sp]
         servicesRoles := opts.userRolesProvider
         servicesPermissions := opts.userPermissionsProvider }

/-! Helper lemmas and sample data. -/

/-- Overlaying an optional value on a present default yields the optional
value when present and the default otherwise. -/
theorem orElse_some {α : Type} (a : Option α) (d : α) :
    (a <|> some d) = some (a.getD d) := by
  cases a <;> rfl

/-- A sample operation carrying a plaintext password attribute. -/
def sampleOp : Operation := ⟨⟨[("password", .str "hunter2")]⟩⟩

/-- The merged `userProcessor` is never absent: the defaults always supply
the built-in processor. -/
theorem mergeOptions_userProcessor_isSome (o : Option (UserManagementAddonOptions World)) :
    ∃ pt, (mergeOptions o).userProcessor = some pt := by
  cases o with
  | none => exact ⟨.jsonApiUserProcessor, rfl⟩
  | some o =>
    cases h : o.userProcessor with
    | none => exact ⟨.jsonApiUserProcessor, by simp [mergeOptions, defaults, h]⟩
    | some pt => exact ⟨pt, by simp [mergeOptions, h]⟩

/-- On merged options, composing the user processor for the built-in
default yields exactly the processor capturing the merged callbacks. -/
theorem createUserProcessor_builtin (opts : UserManagementAddonOptions World)
    (h : opts.userProcessor = some .jsonApiUserProcessor) :
    createUserProcessor opts = .ok
      { resourceClass := opts.userResource
        generateIdCallback := some (opts.userGenerateIdCallback.getD (fun w => (.undefinedVal, w)))
        encryptPasswordCallback := opts.userEncryptPasswordCallback } := by
  unfold createUserProcessor
  rw [h]

/-- On options naming a custom processor type, composition borrows the
custom prototype methods. -/
theorem createUserProcessor_custom (opts : UserManagementAddonOptions World)
    (c : CustomProcImpl World) (h : opts.userProcessor = some (.custom c)) :
    createUserProcessor opts = .ok
      { resourceClass := opts.userResource
        generateIdCallback := c.generateId
        encryptPasswordCallback := c.encryptPassword } := by
  unfold createUserProcessor
  rw [h]

/-- On merged options, composing the user processor never fails. -/
theorem createUserProcessor_merged_ok (o : Option (UserManagementAddonOptions World)) :
    ∃ up, createUserProcessor (mergeOptions o) = .ok up := by
  obtain ⟨pt, hpt⟩ := mergeOptions_userProcessor_isSome o
  cases pt with
  | jsonApiUserProcessor => exact ⟨_, createUserProcessor_builtin _ hpt⟩
  | custom c => exact ⟨_, createUserProcessor_custom _ c hpt⟩

/-! Claims. -/

/-- C1, counterexample: with the default `userProcessor` and
`userEncryptPasswordCallback` omitted, the composed `encryptPassword` does
NOT return an empty attribute set: the merge has already substituted the
default plaintext-passthrough callback, so on an operation carrying
password "hunter2" it returns `{ password: "hunter2" }` (and emits the
unsafe-default warning). -/
theorem C1_counterexample :
    (createUserProcessor (mergeOptions (some {}))).map
        (fun up => (up.runEncryptPassword sampleOp ⟨[]⟩).map Prod.fst)
      = .ok (.ok [("password", JsValue.str "hunter2")]) ∧
    ([("password", JsValue.str "hunter2")] : ResourceAttributes) ≠ [] := by
  constructor
  · rfl
  · simp

/-- C1, amended: if `userProcessor` is left at the built-in default and
`userEncryptPasswordCallback` is omitted, the composed `encryptPassword`
returns the default callback's result — the attribute set
`{ password: op.data.attributes.password }` (plaintext passthrough) — and
emits the unsafe-default warning once. -/
theorem C1_default_encryptPassword_plaintext
    (o : UserManagementAddonOptions World) (op : Operation) (w : World)
    (hp : o.userProcessor = none ∨ o.userProcessor = some .jsonApiUserProcessor)
    (he : o.userEncryptPasswordCallback = none) :
    ∃ up, createUserProcessor (mergeOptions (some o)) = .ok up ∧
      up.runEncryptPassword op w =
        .ok ([("password", getAttr op.data.attributes "password")],
             warn encryptPasswordWarning w) := by
  have hmp : (mergeOptions (some o)).userProcessor = some .jsonApiUserProcessor := by
    rcases hp with hp | hp <;> simp [mergeOptions, defaults, hp]
  have hme : (mergeOptions (some o)).userEncryptPasswordCallback
      = some defaultEncryptPasswordCallback := by
    simp [mergeOptions, defaults, he]
  refine ⟨_, createUserProcessor_builtin _ hmp, ?_⟩
  simp [UserProcessor.runEncryptPassword, hme, defaultEncryptPasswordCallback]

/-- C1 witness: the amended statement at the empty configuration, the
sample operation and the empty world. -/
theorem C1_default_encryptPassword_plaintext_witness :
    ∃ up, createUserProcessor (mergeOptions (some {})) = .ok up ∧
      up.runEncryptPassword sampleOp ⟨[]⟩ =
        .ok ([("password", getAttr sampleOp.data.attributes "password")],
             warn encryptPasswordWarning ⟨[]⟩) :=
  C1_default_encryptPassword_plaintext {} sampleOp ⟨[]⟩ (Or.inl rfl) rfl

/-- C2: with a custom `userProcessor` implementing both `generateId` and
`encryptPassword`, the composed processor's operations return exactly the
custom implementations' results, for arbitrary (hence ignored)
`userGenerateIdCallback` and `userEncryptPasswordCallback` options in the
same configuration `o`.  Rebinding `this` is not observable in this pure
embedding, so behavioural equality is equality of results. -/
theorem C2_custom_processor_borrows_methods
    (o : UserManagementAddonOptions World) (c : CustomProcImpl World)
    (g : Eff World JsValue) (e : Operation → Eff World ResourceAttributes)
    (op : Operation) (w : World)
    (hp : o.userProcessor = some (.custom c))
    (hg : c.generateId = some g) (he : c.encryptPassword = some e) :
    ∃ up, createUserProcessor (mergeOptions (some o)) = .ok up ∧
      up.runGenerateId w = .ok (g w) ∧
      up.runEncryptPassword op w = .ok (e op w) := by
  have hmp : (mergeOptions (some o)).userProcessor = some (.custom c) := by
    simp [mergeOptions, hp]
  refine ⟨_, createUserProcessor_custom _ c hmp, ?_, ?_⟩
  · simp [UserProcessor.runGenerateId, hg]
  · simp [UserProcessor.runEncryptPassword, he]

/-- A concrete custom `generateId` implementation. -/
def customGenerateId : Eff World JsValue := fun w => (.str "custom-id", w)

/-- A concrete custom `encryptPassword` implementation. -/
def customEncryptPassword : Operation → Eff World ResourceAttributes :=
  fun _ w => ([("password", .str "encrypted")], w)

/-- A concrete custom processor implementing both operations. -/
def customImpl : CustomProcImpl World :=
  { generateId := some customGenerateId, encryptPassword := some customEncryptPassword }

/-- A configuration that supplies the custom processor AND both callbacks,
so the witness exhibits the callbacks being ignored. -/
def customOpts : UserManagementAddonOptions World :=
  { userProcessor := some (.custom customImpl)
    userGenerateIdCallback := some (fun w => (.str "callback-id", w))
    userEncryptPasswordCallback := some (fun _ w => ([], w)) }

/-- C2 witness: the custom-processor theorem at a concrete configuration
that also supplies both callbacks. -/
theorem C2_custom_processor_borrows_methods_witness :
    ∃ up, createUserProcessor (mergeOptions (some customOpts)) = .ok up ∧
      up.runGenerateId ⟨[]⟩ = .ok (customGenerateId ⟨[]⟩) ∧
      up.runEncryptPassword sampleOp ⟨[]⟩ = .ok (customEncryptPassword sampleOp ⟨[]⟩) :=
  C2_custom_processor_borrows_methods customOpts customImpl customGenerateId
    customEncryptPassword sampleOp ⟨[]⟩ rfl rfl rfl

/-- C3: for every configuration whose `userLoginCallback` is the callback
`cb`, invoking the composed session processor's `login` equals applying
`cb` to `(op, attrs)` unchanged and returning its result unchanged.  The
world `ω` is arbitrary, so `cb`'s world transformation is applied exactly
once per invocation: instantiating `ω` with an invocation counter (as the
witness does) counts exactly one call. -/
theorem C3_login_delegates_to_callback {ω : Type}
    (opts : UserManagementAddonOptions ω) (srt : SessionResource)
    (cb : Operation → ResourceAttributes → Eff ω Bool)
    (op : Operation) (attrs : ResourceAttributes) (w : ω)
    (h : opts.userLoginCallback = some cb) :
    (createSessionProcessor opts srt).runLogin op attrs w = .ok (cb op attrs w) := by
  simp [createSessionProcessor, SessionProcessor.runLogin, h]

/-- A login callback over a call-counting world: returns `true` and
increments the counter. -/
def countingLoginCb : Operation → ResourceAttributes → Eff Nat Bool :=
  fun _ _ n => (true, n + 1)

/-- A configuration over the counting world supplying that callback. -/
def countingOpts : UserManagementAddonOptions Nat :=
  { userLoginCallback := some countingLoginCb }

/-- C3 witness: at the counting world, one `login` invocation advances the
call counter from 0 to exactly 1 and passes the result through. -/
theorem C3_login_delegates_to_callback_witness :
    (createSessionProcessor countingOpts (createSessionResource countingOpts)).runLogin
        sampleOp [] 0 = .ok (true, 1) :=
  C3_login_delegates_to_callback countingOpts (createSessionResource countingOpts)
    countingLoginCb sampleOp [] 0 rfl

/-- C4, counterexample: with no overrides the composed login does return
`true`, but the unsafe-default warning is emitted once per *invocation*,
not once per installation: after a single installation, a world that has
gone through two login invocations holds two warnings, and `install`
itself emits none. -/
theorem C4_counterexample :
    (createSessionProcessor (mergeOptions none) (createSessionResource (mergeOptions none))).runLogin
        sampleOp [] ⟨[]⟩ = .ok (true, ⟨[loginWarning]⟩) ∧
    (createSessionProcessor (mergeOptions none) (createSessionResource (mergeOptions none))).runLogin
        sampleOp [] ⟨[loginWarning]⟩ = .ok (true, ⟨[loginWarning, loginWarning]⟩) ∧
    [loginWarning, loginWarning].length ≠ 1 := by
  refine ⟨rfl, rfl, by simp⟩

/-- C4, amended: for every configuration that does not override
`userLoginCallback`, the composed login callback returns `true`
(default-permit) and appends exactly one unsafe-default warning per
invocation. -/
theorem C4_default_login_permits_and_warns
    (o : UserManagementAddonOptions World) (srt : SessionResource)
    (op : Operation) (attrs : ResourceAttributes) (w : World)
    (h : o.userLoginCallback = none) :
    (createSessionProcessor (mergeOptions (some o)) srt).runLogin op attrs w =
      .ok (true, ⟨w.warnings ++ [loginWarning]⟩) := by
  have hm : (mergeOptions (some o)).userLoginCallback = some defaultLoginCallback := by
    simp [mergeOptions, defaults, h]
  simp [createSessionProcessor, SessionProcessor.runLogin, hm, defaultLoginCallback, warn]

/-- C4 witness: the amended statement at the empty configuration and empty
world. -/
theorem C4_default_login_permits_and_warns_witness :
    (createSessionProcessor (mergeOptions (some {}))
        (createSessionResource (mergeOptions (some {})))).runLogin sampleOp [] ⟨[]⟩ =
      .ok (true, ⟨[] ++ [loginWarning]⟩) :=
  C4_default_login_permits_and_warns {} (createSessionResource (mergeOptions (some {})))
    sampleOp [] ⟨[]⟩ rfl

/-- C5: the constructor's shallow spread-merge: for every option field
with a built-in default, the merged record holds the caller-supplied value
when one was supplied and the default otherwise, and is never left unset;
the one field without a default (`userGenerateIdCallback`) is passed
through unchanged.  A supplied key replaces the default wholesale (no deep
merge): the merged field is exactly the supplied value. -/
theorem C5_merge_invariant (o : UserManagementAddonOptions World) :
    (mergeOptions (some o)).userResource = some (o.userResource.getD User) ∧
    (mergeOptions (some o)).userProcessor
      = some (o.userProcessor.getD .jsonApiUserProcessor) ∧
    (mergeOptions (some o)).userEncryptPasswordCallback
      = some (o.userEncryptPasswordCallback.getD defaultEncryptPasswordCallback) ∧
    (mergeOptions (some o)).userLoginCallback
      = some (o.userLoginCallback.getD defaultLoginCallback) ∧
    (mergeOptions (some o)).userRolesProvider
      = some (o.userRolesProvider.getD defaultRolesProvider) ∧
    (mergeOptions (some o)).userPermissionsProvider
      = some (o.userPermissionsProvider.getD defaultPermissionsProvider) ∧
    (mergeOptions (some o)).usernameRequestParameter
      = some (o.usernameRequestParameter.getD "username") ∧
    (mergeOptions (some o)).passwordRequestParameter
      = some (o.passwordRequestParameter.getD "password") ∧
    (mergeOptions (some o)).userGenerateIdCallback = o.userGenerateIdCallback := by
  refine ⟨?_, ?_, ?_, ?_, ?_, ?_, ?_, ?_, ?_⟩ <;>
    simp [mergeOptions, defaults, orElse_some]

/-- C6: for every configuration with `usernameRequestParameter = "email"`
and `passwordRequestParameter` left at its default, the synthesized session
entity's attribute schema maps "email" to `String` and has no "username"
key. -/
theorem C6_email_parameter_renames_username
    (o : UserManagementAddonOptions World)
    (hu : o.usernameRequestParameter = some "email")
    (hp : o.passwordRequestParameter = none) :
    attrLookup (createSessionResource (mergeOptions (some o))).attributes "email"
      = some .string ∧
    attrLookup (createSessionResource (mergeOptions (some o))).attributes "username"
      = none := by
  have h : (createSessionResource (mergeOptions (some o))).attributes
      = sessionSchemaAttributes "email" "password" := by
    simp [createSessionResource, mergeOptions, defaults, hu, hp]
  rw [h]
  constructor <;> rfl

/-- C6 witness: the statement at the concrete configuration supplying only
`usernameRequestParameter = "email"`. -/
theorem C6_email_parameter_renames_username_witness :
    attrLookup (createSessionResource
        (mergeOptions (some { usernameRequestParameter := some "email" }))).attributes "email"
      = some .string ∧
    attrLookup (createSessionResource
        (mergeOptions (some { usernameRequestParameter := some "email" }))).attributes "username"
      = none :=
  C6_email_parameter_renames_username { usernameRequestParameter := some "email" } rfl rfl

/-- C7: when the configured `userProcessor` is a custom type, composition
and installation succeed regardless of which of `generateId` and
`encryptPassword` the custom type implements; each missing operation
yields an undefined callback whose invocation fails with the call-time
invocation error.  No install-time check rejects the configuration. -/
theorem C7_missing_custom_ops_fail_at_call_time
    (o : UserManagementAddonOptions World) (c : CustomProcImpl World)
    (op : Operation) (w : World) (app : App World)
    (hp : o.userProcessor = some (.custom c)) :
    ∃ up, createUserProcessor (mergeOptions (some o)) = .ok up ∧
      (c.generateId = none → up.runGenerateId w = .error .invocationError) ∧
      (c.encryptPassword = none →
        up.runEncryptPassword op w = .error .invocationError) ∧
      ∃ app2, install (mergeOptions (some o)) app = .ok app2 := by
  have hmp : (mergeOptions (some o)).userProcessor = some (.custom c) := by
    simp [mergeOptions, hp]
  have hup := createUserProcessor_custom (mergeOptions (some o)) c hmp
  refine ⟨_, hup, ?_, ?_, ?_⟩
  · intro hg
    simp [UserProcessor.runGenerateId, hg]
  · intro he
    simp [UserProcessor.runEncryptPassword, he]
  · refine ⟨{ types := app.types ++
                [.resource (mergeOptions (some o)).userResource,
                 .session (createSessionResource (mergeOptions (some o)))],
              processors := app.processors ++
                [.user { resourceClass := (mergeOptions (some o)).userResource,
                         generateIdCallback := c.generateId,
                         encryptPasswordCallback := c.encryptPassword },
                 .session (createSessionProcessor (mergeOptions (some o))
                            (createSessionResource (mergeOptions (some o))))],
              servicesRoles := (mergeOptions (some o)).userRolesProvider,
              servicesPermissions := (mergeOptions (some o)).userPermissionsProvider }, ?_⟩
    simp [install, hup]

/-- A custom processor implementing neither operation. -/
def emptyCustomImpl : CustomProcImpl World :=
  { generateId := none, encryptPassword := none }

/-- An initially empty host application. -/
def emptyApp : App World :=
  { types := [], processors := [], servicesRoles := none, servicesPermissions := none }

/-- C7 witness: the statement at a custom processor implementing neither
operation, installed into an empty application. -/
theorem C7_missing_custom_ops_fail_at_call_time_witness :
    ∃ up, createUserProcessor
        (mergeOptions (some { userProcessor := some (.custom emptyCustomImpl) })) = .ok up ∧
      (emptyCustomImpl.generateId = none →
        up.runGenerateId ⟨[]⟩ = .error .invocationError) ∧
      (emptyCustomImpl.encryptPassword = none →
        up.runEncryptPassword sampleOp ⟨[]⟩ = .error .invocationError) ∧
      ∃ app2, install (mergeOptions (some { userProcessor := some (.custom emptyCustomImpl) }))
          emptyApp = .ok app2 :=
  C7_missing_custom_ops_fail_at_call_time { userProcessor := some (.custom emptyCustomImpl) }
    emptyCustomImpl sampleOp ⟨[]⟩ emptyApp rfl

/-- C8: a single `install()` on any merged configuration appends exactly
the two entity types (the configured user resource, then the synthesized
session resource) to `app.types`, appends exactly the two composed
processors to `app.processors`, and sets the `roles` and `permissions`
service keys to the configured providers. -/
theorem C8_install_registers
    (o : Option (UserManagementAddonOptions World)) (app : App World) :
    ∃ up, createUserProcessor (mergeOptions o) = .ok up ∧
      install (mergeOptions o) app = .ok
        { types := app.types ++
            [.resource (mergeOptions o).userResource,
             .session (createSessionResource (mergeOptions o))]
          processors := app.processors ++
            [.user up,
             .session (createSessionProcessor (mergeOptions o)
                        (createSessionResource (mergeOptions o)))]
          servicesRoles := (mergeOptions o).userRolesProvider
          servicesPermissions := (mergeOptions o).userPermissionsProvider } := by
  obtain ⟨up, hup⟩ := createUserProcessor_merged_ok o
  exact ⟨up, hup, by simp [install, hup]⟩

/-- Schema shape: both parameters equal to "token". -/
theorem sessionSchemaAttributes_tt :
    sessionSchemaAttributes "token" "token" = [("token", .password)] := by
  rfl

/-- Schema shape: username parameter "token", distinct password parameter. -/
theorem sessionSchemaAttributes_tp (p : String) (hp : p ≠ "token") :
    sessionSchemaAttributes "token" p = [("token", .string), (p, .password)] := by
  simp [sessionSchemaAttributes, objInsert, hp, Ne.symm hp]

/-- Schema shape: password parameter "token", distinct username parameter. -/
theorem sessionSchemaAttributes_ut (u : String) (hu : u ≠ "token") :
    sessionSchemaAttributes u "token" = [("token", .password), (u, .string)] := by
  simp [sessionSchemaAttributes, objInsert, hu, Ne.symm hu]

/-- Schema shape: equal username and password parameters distinct from
"token"; the later-listed password attribute overwrites the username one. -/
theorem sessionSchemaAttributes_uu (u : String) (hu : u ≠ "token") :
    sessionSchemaAttributes u u = [("token", .string), (u, .password)] := by
  simp [sessionSchemaAttributes, objInsert, hu, Ne.symm hu]

/-- Core of C9 on the schema literal: a colliding parameter pair yields
fewer than three attributes; a username/password collision leaves the
shared key with the `Password` type, and a password parameter of "token"
leaves "token" with the `Password` type. -/
theorem sessionSchemaAttributes_collision (u p : String)
    (h : u = p ∨ u = "token" ∨ p = "token") :
    (sessionSchemaAttributes u p).length < 3 ∧
    (u = p → attrLookup (sessionSchemaAttributes u p) p = some .password) ∧
    (p = "token" → attrLookup (sessionSchemaAttributes u p) "token" = some .password) := by
  by_cases hu : u = "token" <;> by_cases hp : p = "token"
  · subst hu; subst hp
    exact ⟨by simp [sessionSchemaAttributes_tt], fun _ => by rfl, fun _ => by rfl⟩
  · subst hu
    rw [sessionSchemaAttributes_tp p hp]
    exact ⟨by simp, fun hup => absurd hup.symm hp, fun hpt => absurd hpt hp⟩
  · subst hp
    rw [sessionSchemaAttributes_ut u hu]
    refine ⟨by simp, fun hup => absurd hup hu, fun _ => ?_⟩
    simp [attrLookup]
  · have hup : u = p := by
      rcases h with h | h | h
      · exact h
      · exact absurd h hu
      · exact absurd h hp
    subst hup
    rw [sessionSchemaAttributes_uu u hu]
    refine ⟨by simp, fun _ => ?_, fun hpt => absurd hpt hp⟩
    simp [attrLookup, Ne.symm hu]

/-- C9: if the configured username and password request parameters collide
with each other or with "token", the synthesized session schema silently
has fewer than three attributes; under a username/password collision the
shared key carries the later-listed `Password` type, and a password
parameter of "token" overwrites the "token" attribute with `Password`.
No error or rejection occurs (`createSessionResource` is total). -/
theorem C9_parameter_collision
    (o : UserManagementAddonOptions World) (u p : String)
    (hu : (mergeOptions (some o)).usernameRequestParameter = some u)
    (hp : (mergeOptions (some o)).passwordRequestParameter = some p)
    (h : u = p ∨ u = "token" ∨ p = "token") :
    (createSessionResource (mergeOptions (some o))).attributes.length < 3 ∧
    (u = p → attrLookup (createSessionResource (mergeOptions (some o))).attributes p
        = some .password) ∧
    (p = "token" → attrLookup (createSessionResource (mergeOptions (some o))).attributes "token"
        = some .password) := by
  have hattrs : (createSessionResource (mergeOptions (some o))).attributes
      = sessionSchemaAttributes u p := by
    simp [createSessionResource, hu, hp]
  rw [hattrs]
  exact sessionSchemaAttributes_collision u p h

/-- A configuration naming both request parameters "login". -/
def collidingOpts : UserManagementAddonOptions World :=
  { usernameRequestParameter := some "login", passwordRequestParameter := some "login" }

/-- C9 witness: the configuration naming both parameters "login" yields a
two-attribute schema whose "login" key has the `Password` type. -/
theorem C9_parameter_collision_witness :
    (createSessionResource (mergeOptions (some collidingOpts))).attributes.length < 3 ∧
    ("login" = "login" →
      attrLookup (createSessionResource (mergeOptions (some collidingOpts))).attributes "login"
        = some .password) ∧
    ("login" = "token" →
      attrLookup (createSessionResource (mergeOptions (some collidingOpts))).attributes "token"
        = some .password) :=
  C9_parameter_collision collidingOpts "login" "login" rfl rfl (Or.inl rfl)

/-- C10: a configuration omitting `userResource` is accepted: the merge
substitutes the built-in `User` type, composition and `install()` succeed,
and the registered user entity is the built-in `User`. -/
theorem C10_missing_userResource_defaults_to_User
    (o : UserManagementAddonOptions World) (app : App World)
    (h : o.userResource = none) :
    (mergeOptions (some o)).userResource = some User ∧
    ∃ up app2, createUserProcessor (mergeOptions (some o)) = .ok up ∧
      install (mergeOptions (some o)) app = .ok app2 ∧
      app2.types = app.types ++
        [.resource (some User),
         .session (createSessionResource (mergeOptions (some o)))] := by
  have hres : (mergeOptions (some o)).userResource = some User := by
    simp [mergeOptions, defaults, h]
  obtain ⟨up, hup⟩ := createUserProcessor_merged_ok (some o)
  exact ⟨hres, up,
    { types := app.types ++
        [.resource (mergeOptions (some o)).userResource,
         .session (createSessionResource (mergeOptions (some o)))],
      processors := app.processors ++
        [.user up,
         .session (createSessionProcessor (mergeOptions (some o))
                    (createSessionResource (mergeOptions (some o))))],
      servicesRoles := (mergeOptions (some o)).userRolesProvider,
      servicesPermissions := (mergeOptions (some o)).userPermissionsProvider },
    hup, by simp [install, hup], by simp [hres]⟩

/-- C10 witness: the empty configuration installed into the empty
application registers the built-in `User`. -/
theorem C10_missing_userResource_defaults_to_User_witness :
    (mergeOptions (some {})).userResource = some User ∧
    ∃ up app2, createUserProcessor (mergeOptions (some {})) = .ok up ∧
      install (mergeOptions (some {})) emptyApp = .ok app2 ∧
      app2.types = emptyApp.types ++
        [.resource (some User),
         .session (createSessionResource (mergeOptions (some ({} : UserManagementAddonOptions World))))] :=
  C10_missing_userResource_defaults_to_User {} emptyApp rfl

end UserManagement
